import Mathlib

/-!
Shallow embedding of `src/driver-sinowealth.c` (libratbag Sinowealth driver).

Machine integers are modelled as `Nat` (unsigned bytes / unsigned int) and
`Int` (C `int` values); C conversions that matter are made explicit:
`cByte` is conversion to `uint8_t`, `cSizeT` is conversion of an `int` to
`size_t` as the usual arithmetic conversions perform it in `rc <
sizeof(*config)`, and `Int.tdiv` is C truncating division.
-/

namespace Sinowealth

def SINOWEALTH_REPORT_ID_CONFIG : Nat := 0x4
def SINOWEALTH_REPORT_ID_CMD : Nat := 0x5
def SINOWEALTH_CONFIG_SIZE : Nat := 520
def SINOWEALTH_XY_INDEPENDENT : Nat := 0x80
def SINOWEALTH_DPI_MIN : Nat := 100
def SINOWEALTH_DPI_MAX : Nat := 12000
def SINOWEALTH_DPI_STEP : Nat := 100
def SINOWEALTH_NUM_DPIS : Nat := 6

/-- enum rgb_effect -/
def RGB_OFF : Nat := 0
def RGB_GLORIOUS : Nat := 0x1
def RGB_SINGLE : Nat := 0x2
def RGB_BREATHING : Nat := 0x5
def RGB_BREATHING7 : Nat := 0x3
def RGB_BREATHING1 : Nat := 0xa
def RGB_TAIL : Nat := 0x4
def RGB_RAVE : Nat := 0x7
def RGB_WAVE : Nat := 0x9

/-- C conversion of an `int` value to `uint8_t` (store into a byte field). -/
def cByte (x : Int) : Nat := (Int.emod x 256).toNat

/-- C usual arithmetic conversion of an `int` to `size_t` (64-bit unsigned),
as it happens in the comparison `rc < sizeof(*config)`. -/
def cSizeT (x : Int) : Nat := (Int.emod x (2 ^ 64)).toNat

/-- struct RGB8 (3 packed bytes, order r g b). -/
structure RGB8 where
  r : Nat
  g : Nat
  b : Nat
deriving DecidableEq, Repr

/-- struct ratbag_color (host framework), channels 0-255. -/
structure RatbagColor where
  red : Nat
  green : Nat
  blue : Nat
deriving DecidableEq, Repr

/-- enum ratbag_led_mode (host framework), the four modes this driver uses. -/
inductive LedMode where
  | off
  | on
  | cycle
  | breathing
deriving DecidableEq, Repr

/-- The slice of struct ratbag_led this driver reads and writes. -/
structure Led where
  mode : LedMode
  color : RatbagColor
deriving DecidableEq, Repr

/-- The slice of struct ratbag_resolution this driver reads and writes.
`index` is the 0-based slot index; `dpi_x`/`dpi_y` are generic DPI values. -/
structure Resolution where
  index : Nat
  dpi_x : Int
  dpi_y : Int
  is_active : Bool
  is_default : Bool
deriving DecidableEq, Repr

/-- struct sinowealth_config_report.  Byte fields are `Nat` values < 256 in
well-formed states; the fixed-size arrays are lists whose lengths are
constrained by `WFConfig`.  `dpi_count` and `active_dpi` are the two 4-bit
fields packed into one byte (dpi_count in the low nibble). -/
structure ConfigReport where
  report_id : Nat
  command_id : Nat
  unk1 : Nat
  config_write : Nat
  unk2 : List Nat
  config : Nat
  dpi_count : Nat
  active_dpi : Nat
  dpi_enabled : Nat
  dpi : List Nat
  dpi_color : List RGB8
  rgb_effect : Nat
  glorious_mode : Nat
  glorious_direction : Nat
  single_color : RGB8
  breathing_mode : Nat
  breathing_colorcount : Nat
  breathing_colors : List RGB8
  tail_mode : Nat
  rave_mode : Nat
  rave_colors : List RGB8
  wave_mode : Nat
  breathing1_mode : Nat
  breathing1_color : RGB8
  unk4 : Nat
  lift_off_distance : Nat
deriving DecidableEq, Repr

/-- Fixed array lengths of the packed struct. -/
def WFConfig (c : ConfigReport) : Prop :=
  c.unk2.length = 6 ∧ c.dpi.length = 16 ∧ c.dpi_color.length = 8 ∧
    c.breathing_colors.length = 7 ∧ c.rave_colors.length = 2

/-- sinowealth_raw_to_dpi: `(raw + 1) * 100`. -/
def sinowealth_raw_to_dpi (raw : Int) : Int := (raw + 1) * 100

/-- sinowealth_dpi_to_raw: `dpi / 100 - 1` with C truncating division. -/
def sinowealth_dpi_to_raw (dpi : Int) : Int := Int.tdiv dpi 100 - 1

/-- sinowealth_raw_to_color. -/
def sinowealth_raw_to_color (raw : RGB8) : RatbagColor :=
  { red := raw.r, green := raw.g, blue := raw.b }

/-- sinowealth_color_to_raw. -/
def sinowealth_color_to_raw (color : RatbagColor) : RGB8 :=
  { r := color.red, g := color.green, b := color.blue }

/-- sinowealth_read_profile, lines 169/198-202: `num_dpis` and the generated
DPI list `dpis[0] = 0; dpis[i] = SINOWEALTH_DPI_MIN + i * SINOWEALTH_DPI_STEP`
for `1 <= i < num_dpis`. -/
def num_dpis : Nat :=
  (SINOWEALTH_DPI_MAX - SINOWEALTH_DPI_MIN) / SINOWEALTH_DPI_STEP + 1 + 1

def buildDpiList : List Nat :=
  0 :: (List.range' 1 (num_dpis - 1)).map
    (fun i => SINOWEALTH_DPI_MIN + i * SINOWEALTH_DPI_STEP)

/-- sinowealth_read_profile, loop body for one resolution (lines 204-218).
`config->dpi_enabled & (1 << index)` selects the disabled override, and
`resolution->index == config->active_dpi - 1` compares, after the usual
arithmetic conversions, the unsigned `index` with `(unsigned)(active_dpi - 1)
= (active_dpi + 2^32 - 1) mod 2^32`. -/
def sinowealth_read_resolution (c : ConfigReport) (i : Nat) : Resolution :=
  let xy :=
    if c.config &&& SINOWEALTH_XY_INDEPENDENT ≠ 0 then
      (sinowealth_raw_to_dpi (c.dpi.getD (i * 2) 0),
       sinowealth_raw_to_dpi (c.dpi.getD (i * 2 + 1) 0))
    else
      (sinowealth_raw_to_dpi (c.dpi.getD i 0),
       sinowealth_raw_to_dpi (c.dpi.getD i 0))
  let xy := if c.dpi_enabled &&& (1 <<< i) ≠ 0 then ((0 : Int), (0 : Int)) else xy
  let act : Bool := i = (c.active_dpi + 2 ^ 32 - 1) % 2 ^ 32
  { index := i, dpi_x := xy.1, dpi_y := xy.2, is_active := act, is_default := act }

/-- sinowealth_read_profile, body-lighting switch (lines 232-252): the switch
has no default case, so an unknown effect code leaves the LED state as it
was. -/
def sinowealth_read_led (c : ConfigReport) (led0 : Led) : Led :=
  if c.rgb_effect = RGB_OFF then { led0 with mode := .off }
  else if c.rgb_effect = RGB_SINGLE then
    { mode := .on, color := sinowealth_raw_to_color c.single_color }
  else if c.rgb_effect = RGB_GLORIOUS ∨ c.rgb_effect = RGB_BREATHING ∨
      c.rgb_effect = RGB_BREATHING7 ∨ c.rgb_effect = RGB_TAIL ∨
      c.rgb_effect = RGB_RAVE ∨ c.rgb_effect = RGB_WAVE then
    { led0 with mode := .cycle }
  else if c.rgb_effect = RGB_BREATHING1 then
    { mode := .breathing, color := sinowealth_raw_to_color c.breathing1_color }
  else led0

/-- The predicate of the first commit loop (line 323):
`dpi_x != dpi_y && dpi_x && dpi_y`. -/
def independentCondition (r : Resolution) : Bool :=
  r.dpi_x ≠ r.dpi_y ∧ r.dpi_x ≠ 0 ∧ r.dpi_y ≠ 0

/-- The spec's `decideIndependentMode`: true iff any resolution has
`dpi_x != dpi_y` with both nonzero.  (Spec-side definition, for comparison
with the code's `commitConfigByte`.) -/
def decideIndependentMode (rs : List Resolution) : Bool :=
  rs.any independentCondition

/-- sinowealth_commit, lines 321-327, exactly as written: first
`config->config &= ~SINOWEALTH_XY_INDEPENDENT` (mask 0x7F on the byte), then,
on the first resolution satisfying `independentCondition`,
`config->config &= SINOWEALTH_XY_INDEPENDENT` followed by `break` — the loop
performs the `&=` at most once, so it is equivalent to one conditional on
`List.any`. -/
def commitConfigByte (cfg : Nat) (rs : List Resolution) : Nat :=
  let c1 := cfg &&& 0x7F
  if rs.any independentCondition then c1 &&& SINOWEALTH_XY_INDEPENDENT else c1

/-- sinowealth_commit, second loop (lines 330-341), processing the
resolutions in order while threading the `dpi` array and the `dpi_enabled`
byte (started at 0xFF by line 329).  `config->dpi_enabled &= ~(1 << index)`
on the `uint8_t` field keeps the low byte of the mask, and
`sinowealth_dpi_to_raw` results are truncated to `uint8_t` on store. -/
def commitSlotsAux (cb : Nat) : List Resolution → List Nat → Nat → List Nat × Nat
  | [], dpi, en => (dpi, en)
  | r :: rest, dpi, en =>
    let dpi :=
      if cb &&& SINOWEALTH_XY_INDEPENDENT ≠ 0 then
        (dpi.set (r.index * 2) (cByte (sinowealth_dpi_to_raw r.dpi_x))).set
          (r.index * 2 + 1) (cByte (sinowealth_dpi_to_raw r.dpi_y))
      else
        dpi.set r.index (cByte (sinowealth_dpi_to_raw r.dpi_x))
    let en :=
      if r.dpi_x ≠ 0 ∧ r.dpi_y ≠ 0 then en &&& (255 ^^^ (1 <<< r.index) % 256)
      else en
    commitSlotsAux cb rest dpi en

/-- sinowealth_commit, body-lighting switch (lines 344-360). -/
def sinowealth_commit_led (c : ConfigReport) (led : Led) : ConfigReport :=
  match led.mode with
  | .off => { c with rgb_effect := RGB_OFF }
  | .on => { c with rgb_effect := RGB_SINGLE,
                    single_color := sinowealth_color_to_raw led.color }
  | .cycle => { c with rgb_effect := RGB_GLORIOUS }
  | .breathing => { c with rgb_effect := RGB_BREATHING1,
                           breathing1_color := sinowealth_color_to_raw led.color }

/-- sinowealth_commit, DPI-indicator loop (lines 364-368): for i = 1..6,
`dpi_color[i-1] = raw(led_i.color)` — replace the first `cols.length`
entries of the stored array in order. -/
def setDpiColors : List RGB8 → List RatbagColor → List RGB8
  | orig, [] => orig
  | [], _ => []
  | _ :: os, col :: cs => sinowealth_color_to_raw col :: setDpiColors os cs

/-- sinowealth_commit, lines 321-371: the new in-memory config derived from
the stored config `c`, the profile's resolutions `rs`, the body LED and the
six DPI-indicator LED colors, ending with `config->config_write = 0x7b`. -/
def sinowealth_commit_config (c : ConfigReport) (rs : List Resolution)
    (led : Led) (cols : List RatbagColor) : ConfigReport :=
  let cb := commitConfigByte c.config rs
  let st := commitSlotsAux cb rs c.dpi 0xFF
  let c1 := { c with config := cb, dpi := st.1, dpi_enabled := st.2 }
  let c2 := sinowealth_commit_led c1 led
  { c2 with dpi_color := setDpiColors c2.dpi_color cols, config_write := 0x7b }

/-- The three wire bytes of an RGB8 triplet. -/
def rgbBytes (c : RGB8) : List Nat := [c.r, c.g, c.b]

def rgbListBytes : List RGB8 → List Nat
  | [] => []
  | c :: rest => rgbBytes c ++ rgbListBytes rest

/-- The packed byte layout of struct sinowealth_config_report, in declaration
order; the two 4-bit fields share one byte with `dpi_count` in the low
nibble.  `memcpy(data, config, sizeof(*config))` copies exactly these bytes. -/
def serializeConfig (c : ConfigReport) : List Nat :=
  [c.report_id, c.command_id, c.unk1, c.config_write]
    ++ c.unk2
    ++ [c.config, c.dpi_count + 16 * c.active_dpi, c.dpi_enabled]
    ++ c.dpi
    ++ rgbListBytes c.dpi_color
    ++ [c.rgb_effect, c.glorious_mode, c.glorious_direction]
    ++ rgbBytes c.single_color
    ++ [c.breathing_mode, c.breathing_colorcount]
    ++ rgbListBytes c.breathing_colors
    ++ [c.tail_mode, c.rave_mode]
    ++ rgbListBytes c.rave_colors
    ++ [c.wave_mode, c.breathing1_mode]
    ++ rgbBytes c.breathing1_color
    ++ [c.unk4, c.lift_off_distance]

/-- sizeof(struct sinowealth_config_report) = 97 (packed). -/
def configReportSize : Nat := 97

/-- sinowealth_commit, lines 372-373: `data = zalloc(520);
memcpy(data, config, sizeof(*config))` — the serialized struct followed by
zero fill up to SINOWEALTH_CONFIG_SIZE. -/
def sinowealth_commit_buffer (c : ConfigReport) (rs : List Resolution)
    (led : Led) (cols : List RatbagColor) : List Nat :=
  serializeConfig (sinowealth_commit_config c rs led cols)
    ++ List.replicate (SINOWEALTH_CONFIG_SIZE - configReportSize) 0

/-- sinowealth_commit, lines 375-384: `rc != SINOWEALTH_CONFIG_SIZE`
fails with -1, else 0. -/
def sinowealth_commit_rc (rc : Int) : Int :=
  if rc ≠ (SINOWEALTH_CONFIG_SIZE : Int) then -1 else 0

/-- sinowealth_read_profile, line 186: `rc < sizeof(*config)` — `rc` is a
signed `int` and `sizeof` is `size_t`, so the comparison converts `rc` to
`size_t` first.  The function returns -1 when the check triggers and
continues (returning 0) otherwise. -/
def sinowealth_read_profile_rc (rc : Int) : Int :=
  if cSizeT rc < configReportSize then -1 else 0

end Sinowealth

namespace Sinowealth

/-- A concrete well-formed config report used to instantiate theorems. -/
def sampleConfig : ConfigReport where
  report_id := 4
  command_id := 0x11
  unk1 := 0
  config_write := 0
  unk2 := [0, 0, 0, 0, 0, 0]
  config := 0
  dpi_count := 6
  active_dpi := 1
  dpi_enabled := 0
  dpi := [7, 1, 2, 3, 4, 5, 6, 7, 8, 9, 10, 11, 12, 13, 14, 15]
  dpi_color := [⟨0,0,0⟩, ⟨0,0,0⟩, ⟨0,0,0⟩, ⟨0,0,0⟩, ⟨0,0,0⟩, ⟨0,0,0⟩, ⟨0,0,0⟩, ⟨0,0,0⟩]
  rgb_effect := 2
  glorious_mode := 0
  glorious_direction := 0
  single_color := ⟨255, 0, 0⟩
  breathing_mode := 0
  breathing_colorcount := 7
  breathing_colors := [⟨0,0,0⟩, ⟨0,0,0⟩, ⟨0,0,0⟩, ⟨0,0,0⟩, ⟨0,0,0⟩, ⟨0,0,0⟩, ⟨0,0,0⟩]
  tail_mode := 0
  rave_mode := 0
  rave_colors := [⟨0,0,0⟩, ⟨0,0,0⟩]
  wave_mode := 0
  breathing1_mode := 0
  breathing1_color := ⟨0, 255, 0⟩
  unk4 := 0
  lift_off_distance := 1

/-- `sampleConfig` with DPI slot 0 marked disabled in the inverted mask. -/
def sampleDisabledConfig : ConfigReport := { sampleConfig with dpi_enabled := 1 }

/-- A concrete LED in cycle mode. -/
def sampleLed : Led := { mode := .cycle, color := ⟨0, 0, 0⟩ }

/-- C1: on commit the XY-independent flag should be set in the config byte iff
some resolution has `dpi_x != dpi_y` with both nonzero, without touching other
bits.  The code executes `config &= SINOWEALTH_XY_INDEPENDENT` (line 324,
instead of `|=`) after having cleared the bit on line 321, so whenever the
condition holds the whole config byte collapses to 0: starting from config
byte 0x41 with resolutions (800,800) and (400,800) the flag ends up CLEARED
and bit 6 is wiped, although `decideIndependentMode` is true; with (800,800)
and (0,0) the byte is left at 0x41 as the claim says. -/
theorem commit_xy_flag_code_eval :
    decideIndependentMode [⟨0, 800, 800, false, false⟩, ⟨1, 400, 800, false, false⟩] = true ∧
    commitConfigByte 0x41 [⟨0, 800, 800, false, false⟩, ⟨1, 400, 800, false, false⟩] = 0 ∧
    Nat.testBit
      (commitConfigByte 0x41 [⟨0, 800, 800, false, false⟩, ⟨1, 400, 800, false, false⟩]) 7
      = false ∧
    Nat.testBit (0x41 : Nat) 6 = true ∧
    Nat.testBit
      (commitConfigByte 0x41 [⟨0, 800, 800, false, false⟩, ⟨1, 400, 800, false, false⟩]) 6
      = false ∧
    decideIndependentMode [⟨0, 800, 800, false, false⟩, ⟨1, 0, 0, false, false⟩] = false ∧
    commitConfigByte 0x41 [⟨0, 800, 800, false, false⟩, ⟨1, 0, 0, false, false⟩] = 0x41 := by
  decide

set_option maxRecDepth 8000

/-- C2: the DPI list should be `[0]` followed by the multiples of 100 from
100 to 12000 (element i = 100*i).  The code's loop computes
`SINOWEALTH_DPI_MIN + i * SINOWEALTH_DPI_STEP` = 100 + 100*i, so the list is
`[0, 200, 300, ..., 12100]`: element 1 is 200 (not 100) and element 120 is
12100, exceeding the driver's own SINOWEALTH_DPI_MAX = 12000. -/
theorem buildDpiList_code_eval :
    buildDpiList.length = 121 ∧
    buildDpiList[0]? = some 0 ∧
    buildDpiList[1]? = some 200 ∧
    buildDpiList[120]? = some 12100 ∧
    SINOWEALTH_DPI_MAX = 12000 := by
  decide

/-- C3: every transport return `rc` below `sizeof(*config)` = 97, including
negative error returns, should make the read fail with -1.  The comparison
`rc < sizeof(*config)` converts the signed `rc` to `size_t`, so a negative
error return such as -1 becomes 2^64 - 1, the check does not trigger, and the
read proceeds (returns 0); short non-negative reads are detected. -/
theorem read_short_check_code_eval :
    sinowealth_read_profile_rc (-1) = 0 ∧
    sinowealth_read_profile_rc 0 = -1 ∧
    sinowealth_read_profile_rc 96 = -1 ∧
    sinowealth_read_profile_rc 97 = 0 ∧
    configReportSize = 97 := by
  decide

/-- C7: for every d in {100, 200, ..., 12000},
`rawToDpi(dpiToRaw(d)) = d`, with `dpiToRaw` the truncating `d / 100 - 1`
and `rawToDpi` the inverse `(raw + 1) * 100`. -/
theorem dpi_raw_roundtrip (d : Int) (h1 : 100 ≤ d) (h2 : d ≤ 12000)
    (h3 : (100 : Int) ∣ d) :
    sinowealth_raw_to_dpi (sinowealth_dpi_to_raw d) = d := by
  unfold sinowealth_raw_to_dpi sinowealth_dpi_to_raw
  linarith [Int.tdiv_mul_cancel h3]

theorem dpi_raw_roundtrip_witness :
    sinowealth_raw_to_dpi (sinowealth_dpi_to_raw 800) = 800 :=
  dpi_raw_roundtrip 800 (by norm_num) (by norm_num) (by norm_num)

/-- C5: for an enabled slot i, profile read decodes the slot's DPI from raw
bytes `dpi[2*i]` and `dpi[2*i+1]` independently when the XY-independent bit
(0x80) of the config byte is set, and otherwise converts the single raw byte
`dpi[i]` into both axes. -/
theorem read_slot_decode (c : ConfigReport) (i : Nat)
    (hen : c.dpi_enabled &&& (1 <<< i) = 0) :
    (c.config &&& SINOWEALTH_XY_INDEPENDENT ≠ 0 →
      (sinowealth_read_resolution c i).dpi_x
          = sinowealth_raw_to_dpi (c.dpi.getD (i * 2) 0) ∧
      (sinowealth_read_resolution c i).dpi_y
          = sinowealth_raw_to_dpi (c.dpi.getD (i * 2 + 1) 0)) ∧
    (c.config &&& SINOWEALTH_XY_INDEPENDENT = 0 →
      (sinowealth_read_resolution c i).dpi_x
          = sinowealth_raw_to_dpi (c.dpi.getD i 0) ∧
      (sinowealth_read_resolution c i).dpi_y
          = (sinowealth_read_resolution c i).dpi_x) := by
  constructor
  · intro hxy
    simp [sinowealth_read_resolution, hen, hxy]
  · intro hxy
    simp [sinowealth_read_resolution, hen, hxy]

theorem read_slot_decode_witness :
    (sinowealth_read_resolution sampleConfig 0).dpi_x
        = sinowealth_raw_to_dpi (sampleConfig.dpi.getD 0 0) ∧
    (sinowealth_read_resolution sampleConfig 0).dpi_y
        = (sinowealth_read_resolution sampleConfig 0).dpi_x :=
  (read_slot_decode sampleConfig 0 (by decide)).2 (by decide)

/-- C8: a resolution is marked active (and default) on read iff its 0-based
index equals the wire `active_dpi` minus 1; the comparison in the code goes
through C unsigned conversion, which agrees with the integer statement for
any index below 2^32 - 1. -/
theorem read_active_slot (c : ConfigReport) (i : Nat)
    (hi : i < 2 ^ 32 - 1) (ha : c.active_dpi < 16) :
    ((sinowealth_read_resolution c i).is_active = true ↔
      (i : Int) = (c.active_dpi : Int) - 1) ∧
    (sinowealth_read_resolution c i).is_default
      = (sinowealth_read_resolution c i).is_active := by
  refine ⟨?_, rfl⟩
  show (decide (i = (c.active_dpi + 2 ^ 32 - 1) % 2 ^ 32) = true) ↔ _
  simp only [decide_eq_true_eq]
  omega

theorem read_active_slot_witness :
    ((sinowealth_read_resolution sampleConfig 0).is_active = true ↔
      ((0 : Nat) : Int) = ((sampleConfig.active_dpi : Nat) : Int) - 1) ∧
    (sinowealth_read_resolution sampleConfig 0).is_default
      = (sinowealth_read_resolution sampleConfig 0).is_active :=
  read_active_slot sampleConfig 0 (by norm_num) (by decide)

end Sinowealth

namespace Sinowealth

/-- C6: the lighting mapping is lossy exactly as documented: every
cycle-family effect (GLORIOUS, BREATHING, BREATHING7, TAIL, RAVE, WAVE)
decodes to generic mode `cycle`, and committing `cycle` writes GLORIOUS (not
WAVE); OFF decodes to and is written from `off`, SINGLE carries the color to
and from `on`, and BREATHING1 carries the color to and from `breathing`. -/
theorem lighting_lossy_map (c : ConfigReport) (led0 led : Led) :
    ((c.rgb_effect = RGB_WAVE ∨ c.rgb_effect = RGB_GLORIOUS ∨
      c.rgb_effect = RGB_BREATHING ∨ c.rgb_effect = RGB_BREATHING7 ∨
      c.rgb_effect = RGB_TAIL ∨ c.rgb_effect = RGB_RAVE) →
      (sinowealth_read_led c led0).mode = .cycle) ∧
    (led.mode = .cycle →
      (sinowealth_commit_led c led).rgb_effect = RGB_GLORIOUS ∧
      RGB_GLORIOUS ≠ RGB_WAVE) ∧
    (c.rgb_effect = RGB_OFF → (sinowealth_read_led c led0).mode = .off) ∧
    (led.mode = .off → (sinowealth_commit_led c led).rgb_effect = RGB_OFF) ∧
    (c.rgb_effect = RGB_SINGLE →
      (sinowealth_read_led c led0).mode = .on ∧
      (sinowealth_read_led c led0).color = sinowealth_raw_to_color c.single_color) ∧
    (led.mode = .on →
      (sinowealth_commit_led c led).rgb_effect = RGB_SINGLE ∧
      (sinowealth_commit_led c led).single_color = sinowealth_color_to_raw led.color) ∧
    (c.rgb_effect = RGB_BREATHING1 →
      (sinowealth_read_led c led0).mode = .breathing ∧
      (sinowealth_read_led c led0).color
        = sinowealth_raw_to_color c.breathing1_color) ∧
    (led.mode = .breathing →
      (sinowealth_commit_led c led).rgb_effect = RGB_BREATHING1 ∧
      (sinowealth_commit_led c led).breathing1_color
        = sinowealth_color_to_raw led.color) := by
  obtain ⟨m, col⟩ := led
  refine ⟨?_, ?_, ?_, ?_, ?_, ?_, ?_, ?_⟩
  · rintro (h | h | h | h | h | h) <;>
      simp [sinowealth_read_led, h, RGB_OFF, RGB_GLORIOUS, RGB_SINGLE, RGB_BREATHING,
        RGB_BREATHING7, RGB_BREATHING1, RGB_TAIL, RGB_RAVE, RGB_WAVE]
  · rintro rfl
    exact ⟨rfl, by decide⟩
  · intro h
    simp [sinowealth_read_led, h, RGB_OFF]
  · rintro rfl
    rfl
  · intro h
    simp [sinowealth_read_led, h, RGB_OFF, RGB_SINGLE]
  · rintro rfl
    exact ⟨rfl, rfl⟩
  · intro h
    simp [sinowealth_read_led, h, RGB_OFF, RGB_GLORIOUS, RGB_SINGLE, RGB_BREATHING,
      RGB_BREATHING7, RGB_BREATHING1, RGB_TAIL, RGB_RAVE, RGB_WAVE]
  · rintro rfl
    exact ⟨rfl, rfl⟩

theorem lighting_lossy_map_witness :
    ((sinowealth_commit_led sampleConfig sampleLed).rgb_effect = RGB_GLORIOUS ∧
      RGB_GLORIOUS ≠ RGB_WAVE) ∧
    ((sinowealth_read_led sampleConfig sampleLed).mode = .on ∧
      (sinowealth_read_led sampleConfig sampleLed).color
        = sinowealth_raw_to_color sampleConfig.single_color) :=
  ⟨(lighting_lossy_map sampleConfig sampleLed sampleLed).2.1 rfl,
   (lighting_lossy_map sampleConfig sampleLed sampleLed).2.2.2.2.1 rfl⟩

end Sinowealth

namespace Sinowealth

/-- Bit j of the byte mask `~(1 << idx)` as a `uint8_t` value. -/
lemma byteMask_testBit (idx j : Nat) (hj : j < 8) :
    (255 ^^^ (1 <<< idx) % 256).testBit j = !decide (idx = j) := by
  rcases Nat.lt_or_ge idx 8 with h8 | h8
  · interval_cases idx <;> interval_cases j <;> decide
  · have hz : (1 <<< idx) % 256 = 0 := by
      rw [Nat.shiftLeft_eq, one_mul]
      have : (2 : Nat) ^ 8 ∣ 2 ^ idx := pow_dvd_pow 2 h8
      omega
    have hne : idx ≠ j := by omega
    rw [hz]
    simp [hne]
    interval_cases j <;> decide

/-- One `dpi_enabled` update step of the commit loop. -/
lemma en_step_testBit (r : Resolution) (en j : Nat) (hj : j < 8) :
    (if r.dpi_x ≠ 0 ∧ r.dpi_y ≠ 0 then en &&& (255 ^^^ (1 <<< r.index) % 256)
     else en).testBit j =
      (en.testBit j && !decide (r.index = j ∧ r.dpi_x ≠ 0 ∧ r.dpi_y ≠ 0)) := by
  split
  case isTrue h =>
    rw [Nat.testBit_land, byteMask_testBit r.index j hj]
    by_cases hij : r.index = j
    · simp [hij, h]
    · simp [hij]
  case isFalse h =>
    have : ¬(r.index = j ∧ r.dpi_x ≠ 0 ∧ r.dpi_y ≠ 0) := fun hc => h ⟨hc.2.1, hc.2.2⟩
    simp [this]

/-- Bit j (j < 8) of the enable mask after the second commit loop: the start
mask's bit, cleared exactly when some processed resolution has index j and
both axes nonzero. -/
lemma commitSlotsAux_snd_testBit (cb : Nat) (rs : List Resolution) (j : Nat)
    (hj : j < 8) :
    ∀ dpi en, ((commitSlotsAux cb rs dpi en).2).testBit j =
      (en.testBit j &&
        !(rs.any fun r => decide (r.index = j ∧ r.dpi_x ≠ 0 ∧ r.dpi_y ≠ 0))) := by
  induction rs with
  | nil => intro dpi en; simp [commitSlotsAux]
  | cons r rest ih =>
    intro dpi en
    rw [commitSlotsAux, ih, en_step_testBit r en j hj]
    simp [Bool.and_assoc, Bool.not_or]

/-- The committed `dpi` array keeps the length of the stored one. -/
lemma commitSlotsAux_fst_length (cb : Nat) (rs : List Resolution) :
    ∀ dpi en, ((commitSlotsAux cb rs dpi en).1).length = dpi.length := by
  induction rs with
  | nil => intro dpi en; rfl
  | cons r rest ih =>
    intro dpi en
    rw [commitSlotsAux]
    split <;> rw [ih] <;> simp

/-- In shared-XY mode the loop only writes positions that are indices of
processed resolutions. -/
lemma commitSlotsAux_fst_getElem_notmem (cb : Nat)
    (hcb : cb &&& SINOWEALTH_XY_INDEPENDENT = 0) (rs : List Resolution) (j : Nat)
    (hj : ∀ r ∈ rs, r.index ≠ j) :
    ∀ dpi en, ((commitSlotsAux cb rs dpi en).1)[j]? = dpi[j]? := by
  induction rs with
  | nil => intro dpi en; rfl
  | cons r rest ih =>
    intro dpi en
    rw [commitSlotsAux]
    have hne : ¬(cb &&& SINOWEALTH_XY_INDEPENDENT ≠ 0) := by simp [hcb]
    rw [if_neg hne]
    rw [ih (fun r' hr' => hj r' (List.mem_cons_of_mem r hr'))]
    exact List.getElem?_set_ne (hj r (List.mem_cons_self r rest))

/-- In shared-XY mode, after the loop, the slot byte of a processed
resolution holds the truncated raw encoding of its `dpi_x` (distinct
indices). -/
lemma commitSlotsAux_fst_getElem_mem (cb : Nat)
    (hcb : cb &&& SINOWEALTH_XY_INDEPENDENT = 0) (rs : List Resolution)
    (hnd : (rs.map Resolution.index).Nodup) (r : Resolution) (hr : r ∈ rs) :
    ∀ dpi en, r.index < dpi.length →
      ((commitSlotsAux cb rs dpi en).1)[r.index]?
        = some (cByte (sinowealth_dpi_to_raw r.dpi_x)) := by
  induction rs with
  | nil => cases hr
  | cons r0 rest ih =>
    intro dpi en hlen
    rw [List.map_cons, List.nodup_cons] at hnd
    rw [commitSlotsAux]
    have hne : ¬(cb &&& SINOWEALTH_XY_INDEPENDENT ≠ 0) := by simp [hcb]
    rw [if_neg hne]
    rcases List.mem_cons.mp hr with rfl | hmem
    · have hnot : ∀ r' ∈ rest, r'.index ≠ r.index := by
        intro r' hr' he
        exact hnd.1 (he ▸ List.mem_map_of_mem Resolution.index hr')
      rw [commitSlotsAux_fst_getElem_notmem cb hcb rest r.index hnot]
      exact List.getElem?_set_self hlen
    · exact ih hnd.2 hmem _ _ (by simpa using hlen)

end Sinowealth

namespace Sinowealth

lemma testBit255 (j : Nat) (hj : j < 8) : (255 : Nat).testBit j = true := by
  interval_cases j <;> decide

lemma land127_128 (x : Nat) : x &&& 127 &&& 128 = 0 := by
  rw [Nat.land_assoc]
  have h : (127 &&& 128 : Nat) = 0 := by decide
  rw [h, Nat.and_zero]

/-- The config byte produced by the first commit loop never has the
XY-independent bit: the `&=` on line 324 cannot set a bit that line 321
already cleared. -/
lemma commitConfigByte_no_xy (cfg : Nat) (rs : List Resolution) :
    commitConfigByte cfg rs &&& SINOWEALTH_XY_INDEPENDENT = 0 := by
  show (if rs.any independentCondition then cfg &&& 127 &&& 128 else cfg &&& 127)
      &&& 128 = 0
  split
  · rw [land127_128, Nat.zero_and]
  · exact land127_128 cfg

/-- Field bookkeeping of the full commit state transformation. -/
lemma commit_config_proj (c : ConfigReport) (rs : List Resolution) (led : Led)
    (cols : List RatbagColor) :
    (sinowealth_commit_config c rs led cols).config_write = 0x7b ∧
    (sinowealth_commit_config c rs led cols).dpi
      = (commitSlotsAux (commitConfigByte c.config rs) rs c.dpi 0xFF).1 ∧
    (sinowealth_commit_config c rs led cols).dpi_enabled
      = (commitSlotsAux (commitConfigByte c.config rs) rs c.dpi 0xFF).2 ∧
    (sinowealth_commit_config c rs led cols).unk2 = c.unk2 ∧
    (sinowealth_commit_config c rs led cols).dpi_color
      = setDpiColors c.dpi_color cols ∧
    (sinowealth_commit_config c rs led cols).breathing_colors
      = c.breathing_colors ∧
    (sinowealth_commit_config c rs led cols).rave_colors = c.rave_colors ∧
    (sinowealth_commit_config c rs led cols).report_id = c.report_id ∧
    (sinowealth_commit_config c rs led cols).command_id = c.command_id ∧
    (sinowealth_commit_config c rs led cols).unk1 = c.unk1 := by
  obtain ⟨m, col⟩ := led
  cases m <;> exact ⟨rfl, rfl, rfl, rfl, rfl, rfl, rfl, rfl, rfl, rfl⟩

/-- C4: on commit the enable mask starts at 0xFF and bit `index` ends up
cleared exactly when both `dpi_x` and `dpi_y` are nonzero; on read a set bit
in `dpi_enabled` forces the decoded resolution to (0, 0). -/
theorem commit_enable_mask (c : ConfigReport) (rs : List Resolution) (led : Led)
    (cols : List RatbagColor) (hnd : (rs.map Resolution.index).Nodup)
    (r : Resolution) (hr : r ∈ rs) (hidx : r.index < 8)
    (c2 : ConfigReport) (i : Nat) :
    ((sinowealth_commit_config c rs led cols).dpi_enabled.testBit r.index = false ↔
      (r.dpi_x ≠ 0 ∧ r.dpi_y ≠ 0)) ∧
    (c2.dpi_enabled &&& (1 <<< i) ≠ 0 →
      (sinowealth_read_resolution c2 i).dpi_x = 0 ∧
      (sinowealth_read_resolution c2 i).dpi_y = 0) := by
  constructor
  · rw [(commit_config_proj c rs led cols).2.2.1,
      commitSlotsAux_snd_testBit _ rs r.index hidx, testBit255 r.index hidx,
      Bool.true_and]
    constructor
    · intro hbit
      have hany : (rs.any fun r' =>
          decide (r'.index = r.index ∧ r'.dpi_x ≠ 0 ∧ r'.dpi_y ≠ 0)) = true := by
        cases hb : rs.any fun r' =>
            decide (r'.index = r.index ∧ r'.dpi_x ≠ 0 ∧ r'.dpi_y ≠ 0)
        · rw [hb] at hbit
          cases hbit
        · rfl
      obtain ⟨r', hr', hcond⟩ := List.any_eq_true.mp hany
      rw [decide_eq_true_eq] at hcond
      have heq : r' = r := List.inj_on_of_nodup_map hnd hr' hr hcond.1
      subst heq
      exact ⟨hcond.2.1, hcond.2.2⟩
    · intro hxy
      have hany : (rs.any fun r' =>
          decide (r'.index = r.index ∧ r'.dpi_x ≠ 0 ∧ r'.dpi_y ≠ 0)) = true :=
        List.any_eq_true.mpr ⟨r, hr, decide_eq_true ⟨rfl, hxy.1, hxy.2⟩⟩
      rw [hany]
      rfl
  · intro h
    constructor <;> simp [sinowealth_read_resolution, h]

theorem commit_enable_mask_witness :
    ((sinowealth_commit_config sampleConfig
        [⟨0, 800, 800, false, false⟩, ⟨1, 0, 0, false, false⟩] sampleLed
        []).dpi_enabled.testBit 0 = false ↔
      ((800 : Int) ≠ 0 ∧ (800 : Int) ≠ 0)) ∧
    ((sinowealth_read_resolution sampleDisabledConfig 0).dpi_x = 0 ∧
      (sinowealth_read_resolution sampleDisabledConfig 0).dpi_y = 0) :=
  ⟨(commit_enable_mask sampleConfig
      [⟨0, 800, 800, false, false⟩, ⟨1, 0, 0, false, false⟩] sampleLed []
      (by decide) ⟨0, 800, 800, false, false⟩ (by decide) (by decide)
      sampleDisabledConfig 0).1,
   (commit_enable_mask sampleConfig
      [⟨0, 800, 800, false, false⟩, ⟨1, 0, 0, false, false⟩] sampleLed []
      (by decide) ⟨0, 800, 800, false, false⟩ (by decide) (by decide)
      sampleDisabledConfig 0).2 (by decide)⟩

/-- C10: a resolution with `dpi_x = 0` still gets
`dpiToRaw(0) = -1`, truncated to the byte 0xFF, written into its slot of
`dpi[]`, while its bit in the enable mask stays set (disabled). -/
theorem commit_disabled_slot_raw (c : ConfigReport) (rs : List Resolution)
    (led : Led) (cols : List RatbagColor)
    (hnd : (rs.map Resolution.index).Nodup) (r : Resolution) (hr : r ∈ rs)
    (hx : r.dpi_x = 0) (hidx : r.index < 8) (hlen : c.dpi.length = 16) :
    ((sinowealth_commit_config c rs led cols).dpi)[r.index]? = some 0xFF ∧
    cByte (sinowealth_dpi_to_raw 0) = 0xFF ∧
    (sinowealth_commit_config c rs led cols).dpi_enabled.testBit r.index
      = true := by
  refine ⟨?_, by decide, ?_⟩
  · rw [(commit_config_proj c rs led cols).2.1,
      commitSlotsAux_fst_getElem_mem _ (commitConfigByte_no_xy c.config rs) rs
        hnd r hr c.dpi 0xFF (by omega), hx]
    decide
  · rw [(commit_config_proj c rs led cols).2.2.1,
      commitSlotsAux_snd_testBit _ rs r.index hidx, testBit255 r.index hidx,
      Bool.true_and]
    have hany : (rs.any fun r' =>
        decide (r'.index = r.index ∧ r'.dpi_x ≠ 0 ∧ r'.dpi_y ≠ 0)) = false := by
      rw [List.any_eq_false]
      rintro r' hr' hcond
      rw [decide_eq_true_eq] at hcond
      have heq : r' = r := List.inj_on_of_nodup_map hnd hr' hr hcond.1
      subst heq
      exact hcond.2.1 hx
    rw [hany]
    rfl

theorem commit_disabled_slot_raw_witness :
    ((sinowealth_commit_config sampleConfig
        [⟨0, 0, 0, false, false⟩, ⟨1, 800, 800, false, false⟩] sampleLed
        []).dpi)[0]? = some 0xFF ∧
    cByte (sinowealth_dpi_to_raw 0) = 0xFF ∧
    (sinowealth_commit_config sampleConfig
        [⟨0, 0, 0, false, false⟩, ⟨1, 800, 800, false, false⟩] sampleLed
        []).dpi_enabled.testBit 0 = true :=
  commit_disabled_slot_raw sampleConfig
    [⟨0, 0, 0, false, false⟩, ⟨1, 800, 800, false, false⟩] sampleLed []
    (by decide) ⟨0, 0, 0, false, false⟩ (by decide) rfl (by decide) rfl

end Sinowealth

namespace Sinowealth

lemma rgbListBytes_length (l : List RGB8) :
    (rgbListBytes l).length = 3 * l.length := by
  induction l with
  | nil => rfl
  | cons c rest ih =>
    simp [rgbListBytes, rgbBytes, ih]
    ring

lemma setDpiColors_length (o : List RGB8) (cs : List RatbagColor) :
    (setDpiColors o cs).length = o.length := by
  induction cs generalizing o with
  | nil => cases o <;> rfl
  | cons c rest ih =>
    cases o with
    | nil => rfl
    | cons x os => simp [setDpiColors, ih]

/-- The packed struct serializes to sizeof(struct sinowealth_config_report)
= 97 bytes. -/
lemma serializeConfig_length (c : ConfigReport) (h : WFConfig c) :
    (serializeConfig c).length = configReportSize := by
  obtain ⟨h1, h2, h3, h4, h5⟩ := h
  simp [serializeConfig, rgbListBytes_length, rgbBytes, h1, h2, h3, h4, h5,
    configReportSize]

lemma commit_config_WF (c : ConfigReport) (rs : List Resolution) (led : Led)
    (cols : List RatbagColor) (h : WFConfig c) :
    WFConfig (sinowealth_commit_config c rs led cols) := by
  obtain ⟨h1, h2, h3, h4, h5⟩ := h
  obtain ⟨p1, p2, p3, p4, p5, p6, p7, p8, p9, p10⟩ :=
    commit_config_proj c rs led cols
  refine ⟨?_, ?_, ?_, ?_, ?_⟩
  · rw [p4]; exact h1
  · rw [p2, commitSlotsAux_fst_length]; exact h2
  · rw [p5, setDpiColors_length]; exact h3
  · rw [p6]; exact h4
  · rw [p7]; exact h5

/-- C9: the commit buffer is exactly 520 bytes, carries the write-magic byte
0x7b at offset 3 (the `config_write` field), is zero beyond the 97 structured
bytes, and the operation succeeds iff the transport accepts all 520 bytes. -/
theorem commit_writes_520 (c : ConfigReport) (rs : List Resolution) (led : Led)
    (cols : List RatbagColor) (h : WFConfig c) (rc : Int) :
    (sinowealth_commit_buffer c rs led cols).length = SINOWEALTH_CONFIG_SIZE ∧
    (sinowealth_commit_buffer c rs led cols)[3]? = some 0x7b ∧
    (∀ j, configReportSize ≤ j → j < SINOWEALTH_CONFIG_SIZE →
      (sinowealth_commit_buffer c rs led cols)[j]? = some 0) ∧
    (sinowealth_commit_rc rc = 0 ↔ rc = (SINOWEALTH_CONFIG_SIZE : Int)) := by
  have hslen : (serializeConfig (sinowealth_commit_config c rs led cols)).length
      = configReportSize :=
    serializeConfig_length _ (commit_config_WF c rs led cols h)
  have e1 : configReportSize = 97 := rfl
  have e2 : SINOWEALTH_CONFIG_SIZE = 520 := rfl
  refine ⟨?_, ?_, ?_, ?_⟩
  · rw [sinowealth_commit_buffer, List.length_append, hslen,
      List.length_replicate]
    omega
  · rw [sinowealth_commit_buffer, List.getElem?_append,
      if_pos (by rw [hslen, e1]; omega)]
    obtain ⟨p1, -⟩ := commit_config_proj c rs led cols
    rw [serializeConfig]
    simp [p1]
  · intro j hj1 hj2
    rw [sinowealth_commit_buffer, List.getElem?_append,
      if_neg (by rw [hslen]; omega), hslen, List.getElem?_replicate,
      if_pos (by rw [e1] at hj1 ⊢; rw [e2] at hj2 ⊢; omega)]
  · unfold sinowealth_commit_rc
    split <;> omega

theorem commit_writes_520_witness :
    (sinowealth_commit_buffer sampleConfig [] sampleLed []).length
      = SINOWEALTH_CONFIG_SIZE ∧
    (sinowealth_commit_buffer sampleConfig [] sampleLed [])[3]? = some 0x7b ∧
    (sinowealth_commit_rc 520 = 0 ↔ (520 : Int) = (SINOWEALTH_CONFIG_SIZE : Int)) :=
  ⟨(commit_writes_520 sampleConfig [] sampleLed [] ⟨rfl, rfl, rfl, rfl, rfl⟩ 520).1,
   (commit_writes_520 sampleConfig [] sampleLed [] ⟨rfl, rfl, rfl, rfl, rfl⟩ 520).2.1,
   (commit_writes_520 sampleConfig [] sampleLed [] ⟨rfl, rfl, rfl, rfl, rfl⟩ 520).2.2.2⟩

end Sinowealth
